import Mathlib

/-!
Shallow embedding of `main.cpp` from the sqlite3-spatialite-example
repository.  The SQLite/SpatiaLite engine is an opaque external
collaborator, so it is modelled parametrically by an `Engine` record that
fixes, for every SQL text, whether `sqlite3_exec` / `sqlite3_prepare_v2`
succeed and what `sqlite3_step` returns.  Each runner is translated into a
pure function from an `Engine` and a database name to the list of
observable events it performs (stdout/stderr writes, open/close of the
handle, allocation and release of the SpatiaLite per-connection cache,
`setenv`, SQL submissions) together with its outcome (a return code, or an
uncaught C++ exception escaping the function).
-/

set_option maxRecDepth 100000

namespace SpatialiteApp

/-- Result of `sqlite3_step` on a prepared statement: a row carrying the
text of its first column, completion without a row (`SQLITE_DONE`), or an
engine error code. -/
inductive StepRes where
  | row (v : String)
  | done
  | errc
deriving DecidableEq

/-- Observable events of a run of the program, in program order. -/
inductive Ev where
  | out (s : String)
  | err (s : String)
  | openDb (name : String)
  | cacheAlloc
  | spatialiteInit
  | cacheFree
  | shutdownLib
  | closeDb
  | setEnv (n v : String)
  | sqlExec (s : String)
  | sqlPrepare (s : String)
  | finalizeStmt
deriving DecidableEq

/-- How a runner function terminates: a normal `return code`, or a C++
exception that propagates out of the function uncaught. -/
inductive Outcome where
  | exited (code : Nat)
  | uncaught (msg : String)
deriving DecidableEq

/-- Abstract model of the SQLite plus SpatiaLite engine, treated as an
opaque external collaborator: per SQL text, the outcome of
`sqlite3_exec` (`none` = `SQLITE_OK`, `some m` = failure with message `m`),
of `sqlite3_prepare_v2` (`true` = `SQLITE_OK`) and of `sqlite3_step`;
plus open/close results, the current `sqlite3_errmsg` text and the two
version strings. -/
structure Engine where
  sqliteVersion : String
  spatialiteVersion : String
  openOk : Bool
  closeOk : Bool
  errmsg : String
  exec : String → Option String
  prepare : String → Bool
  step : String → StepRes

/-- Whether a step result is `SQLITE_ROW`. -/
def StepRes.isRow : StepRes → Bool
  | StepRes.row _ => true
  | _ => false

/-- Table name used by Example 1 (`table_name = "points"`). -/
def table_name : String := "points"

/-- Table name used by Example 2 (`table_name = "location"`). -/
def table_name2 : String := "location"

/-- Shapefile path used by Example 2. -/
def shp_file_path : String := "../shp/BR_UF_2022"

/-- SQL text of the catalog query in `spatial_metadata_exists`. -/
def metaSql : String :=
  "SELECT name FROM sqlite_master WHERE type=\x27table\x27 AND name=\x27spatial_ref_sys\x27"

/-- SQL text of the one-time metadata bootstrap. -/
def initSql : String := "SELECT InitSpatialMetaData(1);"

/-- SQL text creating the `points` table in Example 1. -/
def createSql : String :=
  "CREATE TABLE IF NOT EXISTS " ++ table_name ++ " (id INTEGER PRIMARY KEY AUTOINCREMENT NOT NULL)"

/-- SQL text registering the geometry column in Example 1. -/
def addGeomSql : String :=
  "SELECT AddGeometryColumn(\x27" ++ table_name ++ "\x27, \x27geom\x27, 4326, \x27POINT\x27, \x27XY\x27)"

/-- SQL text opening the transaction in Example 1. -/
def beginSql : String := "BEGIN TRANSACTION;"

/-- SQL text committing the transaction in Example 1. -/
def commitSql : String := "COMMIT"

/-- SQL text of the insert for one WKT point in Example 1. -/
def insSql (wkt : String) : String :=
  "INSERT INTO " ++ table_name ++ " (geom) VALUES (GeomFromText(\x27" ++ wkt ++ "\x27, 4326))"

/-- SQL text of the shapefile import in Example 2. -/
def importSql : String :=
  "SELECT ImportSHP(\x27" ++ shp_file_path ++ "\x27, \x27" ++ table_name2 ++ "\x27, \x27UTF-8\x27)"

/-- SQL text of the containment query for one WKT point in Example 2. -/
def qrySql (wkt : String) : String :=
  "SELECT NM_UF FROM " ++ table_name2 ++ " WHERE ST_Within(GeomFromText(\x27" ++ wkt ++ "\x27, 4326), geometry) =1"

/-- Fixed ordered list of tourist places inserted by Example 1. -/
def places1 : List (String × String) :=
  [("Rio de Janeiro", "POINT(-43.1729 -22.9068)"),
   ("Foz do Iguacu", "POINT(-54.5854 -25.5165)"),
   ("Fernando de Noronha", "POINT(-32.423786 -3.853808)")]

/-- Fixed ordered list of the five query points of Example 2. -/
def places2 : List (String × String) :=
  [("Rio de Janeiro", "POINT(-43.1729 -22.9068)"),
   ("Foz do Iguacu", "POINT(-54.5854 -25.5165)"),
   ("Fernando de Noronha", "POINT(-32.423786 -3.853808)"),
   ("Null Island", "POINT(0 0)"),
   ("New York", "POINT(-74.0060 40.7128)")]

/-- Events of the C++ `handle_error` helper: print the message to stderr,
free the message, close the handle, release the per-connection cache,
shut down the library. -/
def handle_error (err_msg : String) : List Ev :=
  [Ev.err ("Error: " ++ err_msg), Ev.closeDb, Ev.cacheFree, Ev.shutdownLib]

/-- Events and result of the C++ `spatial_metadata_exists` helper.  On
`sqlite3_prepare_v2` failure it prints to stderr and throws
`std::runtime_error`, modelled as `Except.error`; otherwise it steps the
statement and reports whether a row came back. -/
def spatial_metadata_exists (e : Engine) : List Ev × Except String Bool :=
  if e.prepare metaSql then
    ([Ev.sqlPrepare metaSql, Ev.finalizeStmt], Except.ok (e.step metaSql).isRow)
  else
    ([Ev.sqlPrepare metaSql,
      Ev.err ("Error checking if spatial_ref_sys table exists: " ++ e.errmsg)],
     Except.error "Error checking if spatial_ref_sys table exists")

/-- One `sqlite3_exec` step of a runner: emit the leading stdout events
`pre`, submit the SQL; on failure print `ctx` plus the engine message and
run `handle_error`.  The boolean is `false` when the runner must return 1. -/
def step1 (e : Engine) (pre : List Ev) (sql ctx : String) : List Ev × Bool :=
  match e.exec sql with
  | none => (pre ++ [Ev.sqlExec sql], true)
  | some m => (pre ++ [Ev.sqlExec sql, Ev.err (ctx ++ m)] ++ handle_error m, false)

/-- Sequencing of two fallible runner fragments: the second runs only when
the first succeeded, mirroring the early `return 1` after each check. -/
def seqs (a : List Ev × Bool) (b : Unit → List Ev × Bool) : List Ev × Bool :=
  if a.2 then (a.1 ++ (b ()).1, (b ()).2) else a

/-- Conditional metadata bootstrap shared by both runners: when the
metadata table was not found, run `InitSpatialMetaData`. -/
def initStep (e : Engine) : List Ev × Bool :=
  if (e.step metaSql).isRow then ([], true)
  else step1 e [Ev.out "Initializing Spatialite..."] initSql "Error initializing Spatialite: "

/-- Insert loop of Example 1 over the remaining places; aborts at the
first failing insert via `handle_error`. -/
def insertLoop (e : Engine) : List (String × String) → List Ev × Bool
  | [] => ([], true)
  | p :: rest =>
    let pre := [Ev.out ("Adding " ++ p.1 ++ ": " ++ p.2)]
    let sql := insSql p.2
    match e.exec sql with
    | none =>
      let r := insertLoop e rest
      (pre ++ [Ev.sqlExec sql] ++ r.1, r.2)
    | some m =>
      (pre ++ [Ev.sqlExec sql, Ev.err ("Error adding " ++ p.1 ++ ": " ++ m)] ++ handle_error m, false)

/-- Fallible body of Example 1 after the metadata-existence check:
optional bootstrap, table creation, geometry column, transaction open,
insert loop, commit. -/
def body1 (e : Engine) : List Ev × Bool :=
  seqs (initStep e) fun _ =>
  seqs (step1 e [Ev.out ("Creating table: " ++ table_name)] createSql "Error creating table: ") fun _ =>
  seqs (step1 e [Ev.out ("Adding geometry column to table: " ++ table_name)] addGeomSql "Error adding geometry column: ") fun _ =>
  seqs (step1 e [Ev.out "Adding some tourist places in Brazil..."] beginSql "Error starting transaction: ") fun _ =>
  seqs (insertLoop e places1) fun _ =>
  step1 e [Ev.out "Committing transaction..."] commitSql "Error committing transaction: "

/-- Success-path teardown shared by both runners: close the handle (a
close failure is only reported, not acted on), release the cache, shut
the library down. -/
def closeTail (e : Engine) : List Ev :=
  [Ev.closeDb] ++
  (if e.closeOk then [] else [Ev.err ("Error closing database: " ++ e.errmsg)]) ++
  [Ev.cacheFree, Ev.shutdownLib]

/-- Shallow embedding of `run_example_1`. -/
def run_example_1 (e : Engine) (db_name : String) : List Ev × Outcome :=
  let t0 := [Ev.out ("SQLite version: " ++ e.sqliteVersion),
             Ev.out ("Spatialite version: " ++ e.spatialiteVersion),
             Ev.out ("Opening database: " ++ db_name),
             Ev.openDb db_name]
  if e.openOk then
    let t1 := t0 ++ [Ev.cacheAlloc, Ev.spatialiteInit]
    match spatial_metadata_exists e with
    | (tm, Except.error m) => (t1 ++ tm, Outcome.uncaught m)
    | (tm, Except.ok _) =>
      let r := body1 e
      if r.2 then
        (t1 ++ tm ++ r.1 ++ closeTail e ++ [Ev.out "Example 1 Done."], Outcome.exited 0)
      else
        (t1 ++ tm ++ r.1, Outcome.exited 1)
  else
    (t0 ++ [Ev.err ("Error opening database: " ++ e.errmsg), Ev.closeDb], Outcome.exited 1)

/-- Query loop of Example 2 over the remaining places: prepare the
containment query; on prepare failure print the engine message, tear down
(close, cache release, shutdown) and return failure; otherwise step once
and report the row text or "Not found", then continue. -/
def queryLoop (e : Engine) : List (String × String) → List Ev × Bool
  | [] => ([], true)
  | p :: rest =>
    let sql := qrySql p.2
    if e.prepare sql then
      let line :=
        match e.step sql with
        | StepRes.row v => p.1 ++ " ---> " ++ v
        | _ => p.1 ++ " ---> " ++ "Not found"
      let r := queryLoop e rest
      ([Ev.sqlPrepare sql, Ev.out line, Ev.finalizeStmt] ++ r.1, r.2)
    else
      ([Ev.sqlPrepare sql,
        Ev.err ("Error preparing statement: " ++ e.errmsg),
        Ev.closeDb, Ev.cacheFree, Ev.shutdownLib], false)

/-- Fallible body of Example 2 after the metadata-existence check:
optional bootstrap, shapefile import, query loop. -/
def body2 (e : Engine) : List Ev × Bool :=
  seqs (initStep e) fun _ =>
  seqs (step1 e
          [Ev.out ("Importing shapefile: " ++ shp_file_path), Ev.out importSql]
          importSql "Error importing shapefile: ") fun _ =>
  (let r := queryLoop e places2
   ([Ev.out "Checking what are the correspoding State names for the following points:"] ++ r.1, r.2))

/-- Shallow embedding of `run_example_2`. -/
def run_example_2 (e : Engine) (db_name : String) : List Ev × Outcome :=
  let t0 := [Ev.setEnv "SPATIALITE_SECURITY" "relaxed",
             Ev.out ("Opening database: " ++ db_name),
             Ev.openDb db_name]
  if e.openOk then
    let t1 := t0 ++ [Ev.cacheAlloc, Ev.spatialiteInit]
    match spatial_metadata_exists e with
    | (tm, Except.error m) => (t1 ++ tm, Outcome.uncaught m)
    | (tm, Except.ok _) =>
      let r := body2 e
      if r.2 then
        (t1 ++ tm ++ r.1 ++ closeTail e ++ [Ev.out "Example 2 Done."], Outcome.exited 0)
      else
        (t1 ++ tm ++ r.1, Outcome.exited 1)
  else
    (t0 ++ [Ev.err ("Error opening database: " ++ e.errmsg), Ev.closeDb], Outcome.exited 1)

/-- Accumulated digit parsing of C `atoi` (stops at the first non-digit). -/
def digitsVal : List Char → Nat → Nat
  | c :: cs, acc => if c.isDigit then digitsVal cs (acc * 10 + (c.toNat - 48)) else acc
  | [], acc => acc

/-- Model of C `atoi`: optional leading whitespace, optional sign, then a
maximal run of decimal digits (zero digits give 0). -/
def atoi (s : String) : Int :=
  match s.toList.dropWhile Char.isWhitespace with
  | '-' :: rest => - (digitsVal rest 0 : Int)
  | '+' :: rest => (digitsVal rest 0 : Int)
  | cs => (digitsVal cs 0 : Int)

/-- Conversion of a C `int` to `uint8_t`: reduction modulo 256. -/
def toUInt8 (n : Int) : Nat := (n % 256).toNat

/-- One result of the `getopt_long` loop, modelling the external parser
opaquely: a recognized option with its argument, `--help`/`-h`, or an
option the parser does not recognize (`getopt_long` returns a question
mark for it). -/
inductive OptTok where
  | exampleId (arg : String)
  | dbName (arg : String)
  | help
  | unknown
deriving DecidableEq

/-- Command line as seen through `getopt_long`: the option tokens in
order, and the first leftover positional argument, if any. -/
structure CmdLine where
  toks : List OptTok
  positional : Option String

/-- Mutable parse state of `main`: `in_memory_db`, `db_name`,
`example_id` (a `uint8_t`, hence a value below 256). -/
structure Config where
  in_memory_db : Bool
  db_name : String
  example_id : Nat
deriving DecidableEq

/-- Initial parse state of `main`. -/
def initCfg : Config := { in_memory_db := true, db_name := "", example_id := 0 }

/-- Events of `show_usage`: the usage text, line by line, on stdout. -/
def show_usage : List Ev :=
  [Ev.out "Usage: sqlite3_spatialite_app [options]",
   Ev.out "Options:",
   Ev.out "  -h, --help              Show this help message",
   Ev.out "  -i, --example-id <id>   ID of the example to run",
   Ev.out "  -n, --db-name <name>    Name of the database file (if not provided, in-memory)"]

/-- Option loop of `parse_args`: `-i` stores `atoi(optarg)` truncated to
`uint8_t`, `-n` stores the name and clears the in-memory flag, and both
`-h` and an unrecognized option print the usage and exit 0 at once
(modelled by result `none`). -/
def parse_args : List OptTok → Config → List Ev × Option Config
  | [], cfg => ([], some cfg)
  | OptTok.exampleId a :: rest, cfg =>
    parse_args rest { cfg with example_id := toUInt8 (atoi a) }
  | OptTok.dbName a :: rest, cfg =>
    parse_args rest { cfg with db_name := a, in_memory_db := false }
  | OptTok.help :: _, _ => (show_usage, none)
  | OptTok.unknown :: _, _ => (show_usage, none)

/-- Switch of `main` on the parsed example id: 1 and 2 dispatch to the
runners; anything else reports the unknown id (streamed as the character
with that code, since `example_id` is a `uint8_t`) and returns 1. -/
def switchExample (e : Engine) (id : Nat) (db_name : String) : List Ev × Outcome :=
  if id = 1 then
    let r := run_example_1 e db_name
    (Ev.out "Running example 1..." :: r.1, r.2)
  else if id = 2 then
    let r := run_example_2 e db_name
    (Ev.out "Running example 2..." :: r.1, r.2)
  else
    ([Ev.err ("Unknown example ID: " ++ (Char.ofNat id).toString)], Outcome.exited 1)

/-- Shallow embedding of `main`: parse the options (exiting 0 on help or
an unrecognized option), reject leftover positional arguments with exit
code 1, substitute `:memory:` when no database name was given, then
dispatch on the example id. -/
def mainRun (e : Engine) (cmd : CmdLine) : List Ev × Outcome :=
  let t0 := [Ev.out "parsing arguments..."]
  match parse_args cmd.toks initCfg with
  | (t, none) => (t0 ++ t, Outcome.exited 0)
  | (t, some cfg) =>
    match cmd.positional with
    | some a => (t0 ++ t ++ [Ev.err ("Unexpected argument: " ++ a)], Outcome.exited 1)
    | none =>
      let memEv : List Ev := if cfg.in_memory_db then [Ev.out "Using in-memory database"] else []
      let db := if cfg.in_memory_db then ":memory:" else cfg.db_name
      let r := switchExample e cfg.example_id db
      (t0 ++ t ++ memEv ++ r.1, r.2)

/-- Projection of the SQL texts submitted through `sqlite3_exec`, in
order, from an event trace. -/
def execsOf (t : List Ev) : List String :=
  t.filterMap fun ev =>
    match ev with
    | Ev.sqlExec s => some s
    | _ => none

/-- Structural prefix test on character lists (kernel-reducible). -/
def leadsWith : List Char → List Char → Bool
  | [], _ => true
  | _ :: _, [] => false
  | a :: as, b :: bs => a == b && leadsWith as bs

/-- Whether the string `s` begins with the text `p`. -/
def strLeads (p s : String) : Bool := leadsWith p.toList s.toList

/-- One step of a minimal transactional model of the engine, folded over
the submitted SQL texts.  The state is the committed insert list plus, if
a transaction is open, its pending insert list; `BEGIN` opens, `COMMIT`
publishes, an insert into the point table appends (directly when in
autocommit mode), anything else is ignored; uncommitted pending rows are
simply lost. -/
def txnApply : List String × Option (List String) → String → List String × Option (List String)
  | (com, none), s =>
    if s = beginSql then (com, some [])
    else if strLeads "INSERT INTO points" s then (com ++ [s], none)
    else (com, none)
  | (com, some pend), s =>
    if s = commitSql then (com ++ pend, none)
    else if strLeads "INSERT INTO points" s then (com, some (pend ++ [s]))
    else (com, some pend)

/-- Rows of the point table that are durably committed after the given
SQL texts ran against a fresh database, under the `txnApply` model. -/
def committedInserts (l : List String) : List String :=
  (l.foldl txnApply ([], none)).1

/-- Absence of any `setenv` call in a trace. -/
def NoSetEnv (t : List Ev) : Prop := ∀ n v, Ev.setEnv n v ∉ t

/-- Absence of any database operation (open, SQL submission, statement
preparation) in a trace. -/
def NoDbOp (t : List Ev) : Prop :=
  ∀ ev ∈ t, (∀ s, ev ≠ Ev.openDb s) ∧ (∀ s, ev ≠ Ev.sqlExec s) ∧ (∀ s, ev ≠ Ev.sqlPrepare s)

/-- A trace performs the failure teardown: the handle is closed, the
per-connection cache released, the library shut down, and some diagnostic
reached stderr. -/
def Teardown (t : List Ev) : Prop :=
  Ev.closeDb ∈ t ∧ Ev.cacheFree ∈ t ∧ Ev.shutdownLib ∈ t ∧ ∃ m, Ev.err m ∈ t

theorem seqs_snd (a : List Ev × Bool) (b : Unit → List Ev × Bool) :
    (seqs a b).2 = (a.2 && (b ()).2) := by
  by_cases h : a.2 <;> simp [seqs, h]

theorem seqs_fst_of_true {a : List Ev × Bool} (b : Unit → List Ev × Bool)
    (h : a.2 = true) : (seqs a b).1 = a.1 ++ (b ()).1 := by
  simp [seqs, h]

theorem mem_seqs {a : List Ev × Bool} {b : Unit → List Ev × Bool} {ev : Ev}
    (h : ev ∈ (seqs a b).1) : ev ∈ a.1 ∨ ev ∈ (b ()).1 := by
  by_cases h2 : a.2 <;> simp [seqs, h2] at h <;> tauto

theorem seqs_of_false {a : List Ev × Bool} (b : Unit → List Ev × Bool)
    (h : a.2 = false) : seqs a b = a := by
  simp [seqs, h]

theorem teardown_append_left {t : List Ev} (s : List Ev) (h : Teardown t) :
    Teardown (s ++ t) := by
  obtain ⟨h1, h2, h3, m, h4⟩ := h
  exact ⟨List.mem_append_right s h1, List.mem_append_right s h2,
    List.mem_append_right s h3, m, List.mem_append_right s h4⟩

theorem teardown_append_right {t : List Ev} (s : List Ev) (h : Teardown t) :
    Teardown (t ++ s) := by
  obtain ⟨h1, h2, h3, m, h4⟩ := h
  exact ⟨List.mem_append_left s h1, List.mem_append_left s h2,
    List.mem_append_left s h3, m, List.mem_append_left s h4⟩

theorem teardown_handle_error (m : String) : Teardown (handle_error m) := by
  refine ⟨?_, ?_, ?_, "Error: " ++ m, ?_⟩ <;> simp [handle_error]

theorem step1_false {e : Engine} {pre : List Ev} {sql ctx : String}
    (h : (step1 e pre sql ctx).2 = false) : Teardown (step1 e pre sql ctx).1 := by
  cases hx : e.exec sql with
  | none => simp [step1, hx] at h
  | some m =>
    simp only [step1, hx]
    exact teardown_append_left _ (teardown_handle_error m)

theorem insertLoop_false {e : Engine} :
    ∀ l : List (String × String), (insertLoop e l).2 = false →
      Teardown (insertLoop e l).1 := by
  intro l
  induction l with
  | nil => intro h; simp [insertLoop] at h
  | cons p rest ih =>
    intro h
    cases hx : e.exec (insSql p.2) with
    | none =>
      simp only [insertLoop, hx] at h ⊢
      exact teardown_append_left _ (ih h)
    | some m =>
      simp only [insertLoop, hx]
      exact teardown_append_left _ (teardown_handle_error m)

theorem initStep_false {e : Engine} (h : (initStep e).2 = false) :
    Teardown (initStep e).1 := by
  by_cases hr : (e.step metaSql).isRow
  · simp [initStep, hr] at h
  · simp only [initStep, hr, Bool.false_eq_true, if_false] at h ⊢
    exact step1_false h

theorem queryLoop_false {e : Engine} :
    ∀ l : List (String × String), (queryLoop e l).2 = false →
      Teardown (queryLoop e l).1 := by
  intro l
  induction l with
  | nil => intro h; simp [queryLoop] at h
  | cons p rest ih =>
    intro h
    by_cases hp : e.prepare (qrySql p.2)
    · simp only [queryLoop, hp, if_true] at h ⊢
      exact teardown_append_left _ (ih h)
    · simp only [queryLoop, hp, Bool.false_eq_true, if_false]
      refine ⟨?_, ?_, ?_, "Error preparing statement: " ++ e.errmsg, ?_⟩ <;> simp

theorem seqs_false_teardown {a : List Ev × Bool} {b : Unit → List Ev × Bool}
    (ha : a.2 = false → Teardown a.1)
    (hb : (b ()).2 = false → Teardown (b ()).1)
    (h : (seqs a b).2 = false) : Teardown (seqs a b).1 := by
  by_cases h2 : a.2
  · rw [seqs_snd, h2, Bool.true_and] at h
    rw [seqs_fst_of_true b h2]
    exact teardown_append_left _ (hb h)
  · have h2f : a.2 = false := by simpa using h2
    simp only [seqs, h2f, Bool.false_eq_true, if_false]
    exact ha h2f

theorem body1_false {e : Engine} (h : (body1 e).2 = false) :
    Teardown (body1 e).1 := by
  unfold body1 at h ⊢
  refine seqs_false_teardown initStep_false (fun h2 => ?_) h
  refine seqs_false_teardown step1_false (fun h3 => ?_) h2
  refine seqs_false_teardown step1_false (fun h4 => ?_) h3
  refine seqs_false_teardown step1_false (fun h5 => ?_) h4
  exact seqs_false_teardown (insertLoop_false places1) step1_false h5

theorem body2_false {e : Engine} (h : (body2 e).2 = false) :
    Teardown (body2 e).1 := by
  unfold body2 at h ⊢
  refine seqs_false_teardown initStep_false (fun h2 => ?_) h
  refine seqs_false_teardown step1_false (fun h3 => ?_) h2
  exact teardown_append_left _ (queryLoop_false places2 h3)

theorem run1_exited_one {e : Engine} {d : String}
    (h : (run_example_1 e d).2 = Outcome.exited 1) :
    Ev.closeDb ∈ (run_example_1 e d).1 ∧
    (Ev.cacheAlloc ∈ (run_example_1 e d).1 →
      Ev.cacheFree ∈ (run_example_1 e d).1 ∧ Ev.shutdownLib ∈ (run_example_1 e d).1) ∧
    ∃ m, Ev.err m ∈ (run_example_1 e d).1 := by
  by_cases ho : e.openOk
  · by_cases hp : e.prepare metaSql
    · by_cases hb : (body1 e).2
      · exfalso
        simp [run_example_1, spatial_metadata_exists, ho, hp, hb] at h
      · have hb2 : (body1 e).2 = false := by simpa using hb
        obtain ⟨c1, c2, c3, m, c4⟩ := body1_false hb2
        refine ⟨?_, fun _ => ⟨?_, ?_⟩, m, ?_⟩ <;>
          simp [run_example_1, spatial_metadata_exists, ho, hp, hb2, c1, c2, c3, c4]
    · have hp2 : e.prepare metaSql = false := by simpa using hp
      exfalso
      simp [run_example_1, spatial_metadata_exists, ho, hp2] at h
  · have ho2 : e.openOk = false := by simpa using ho
    refine ⟨?_, fun hc => absurd hc ?_, "Error opening database: " ++ e.errmsg, ?_⟩ <;>
      simp [run_example_1, ho2]

theorem run2_exited_one {e : Engine} {d : String}
    (h : (run_example_2 e d).2 = Outcome.exited 1) :
    Ev.closeDb ∈ (run_example_2 e d).1 ∧
    (Ev.cacheAlloc ∈ (run_example_2 e d).1 →
      Ev.cacheFree ∈ (run_example_2 e d).1 ∧ Ev.shutdownLib ∈ (run_example_2 e d).1) ∧
    ∃ m, Ev.err m ∈ (run_example_2 e d).1 := by
  by_cases ho : e.openOk
  · by_cases hp : e.prepare metaSql
    · by_cases hb : (body2 e).2
      · exfalso
        simp [run_example_2, spatial_metadata_exists, ho, hp, hb] at h
      · have hb2 : (body2 e).2 = false := by simpa using hb
        obtain ⟨c1, c2, c3, m, c4⟩ := body2_false hb2
        refine ⟨?_, fun _ => ⟨?_, ?_⟩, m, ?_⟩ <;>
          simp [run_example_2, spatial_metadata_exists, ho, hp, hb2, c1, c2, c3, c4]
    · have hp2 : e.prepare metaSql = false := by simpa using hp
      exfalso
      simp [run_example_2, spatial_metadata_exists, ho, hp2] at h
  · have ho2 : e.openOk = false := by simpa using ho
    refine ⟨?_, fun hc => absurd hc ?_, "Error opening database: " ++ e.errmsg, ?_⟩ <;>
      simp [run_example_2, ho2]

theorem run1_meta_uncaught {e : Engine} {d : String}
    (ho : e.openOk = true) (hp : e.prepare metaSql = false) :
    (run_example_1 e d).2 = Outcome.uncaught "Error checking if spatial_ref_sys table exists" ∧
    Ev.cacheAlloc ∈ (run_example_1 e d).1 ∧
    Ev.err ("Error checking if spatial_ref_sys table exists: " ++ e.errmsg) ∈ (run_example_1 e d).1 ∧
    Ev.cacheFree ∉ (run_example_1 e d).1 ∧
    Ev.closeDb ∉ (run_example_1 e d).1 := by
  refine ⟨?_, ?_, ?_, ?_, ?_⟩ <;> simp [run_example_1, spatial_metadata_exists, ho, hp]

theorem run2_meta_uncaught {e : Engine} {d : String}
    (ho : e.openOk = true) (hp : e.prepare metaSql = false) :
    (run_example_2 e d).2 = Outcome.uncaught "Error checking if spatial_ref_sys table exists" ∧
    Ev.cacheAlloc ∈ (run_example_2 e d).1 ∧
    Ev.err ("Error checking if spatial_ref_sys table exists: " ++ e.errmsg) ∈ (run_example_2 e d).1 ∧
    Ev.cacheFree ∉ (run_example_2 e d).1 ∧
    Ev.closeDb ∉ (run_example_2 e d).1 := by
  refine ⟨?_, ?_, ?_, ?_, ?_⟩ <;> simp [run_example_2, spatial_metadata_exists, ho, hp]

theorem run1_exited_any {e : Engine} {d : String} {c : Nat}
    (h : (run_example_1 e d).2 = Outcome.exited c)
    (hc : Ev.cacheAlloc ∈ (run_example_1 e d).1) :
    Ev.cacheFree ∈ (run_example_1 e d).1 ∧ Ev.closeDb ∈ (run_example_1 e d).1 := by
  by_cases ho : e.openOk
  · by_cases hp : e.prepare metaSql
    · by_cases hb : (body1 e).2
      · constructor <;> simp [run_example_1, spatial_metadata_exists, ho, hp, hb, closeTail]
      · have hb2 : (body1 e).2 = false := by simpa using hb
        obtain ⟨c1, c2, c3, m, c4⟩ := body1_false hb2
        constructor <;>
          simp [run_example_1, spatial_metadata_exists, ho, hp, hb2, c1, c2]
    · have hp2 : e.prepare metaSql = false := by simpa using hp
      exfalso
      simp [run_example_1, spatial_metadata_exists, ho, hp2] at h
  · have ho2 : e.openOk = false := by simpa using ho
    exfalso
    revert hc
    simp [run_example_1, ho2]

theorem run2_exited_any {e : Engine} {d : String} {c : Nat}
    (h : (run_example_2 e d).2 = Outcome.exited c)
    (hc : Ev.cacheAlloc ∈ (run_example_2 e d).1) :
    Ev.cacheFree ∈ (run_example_2 e d).1 ∧ Ev.closeDb ∈ (run_example_2 e d).1 := by
  by_cases ho : e.openOk
  · by_cases hp : e.prepare metaSql
    · by_cases hb : (body2 e).2
      · constructor <;> simp [run_example_2, spatial_metadata_exists, ho, hp, hb, closeTail]
      · have hb2 : (body2 e).2 = false := by simpa using hb
        obtain ⟨c1, c2, c3, m, c4⟩ := body2_false hb2
        constructor <;>
          simp [run_example_2, spatial_metadata_exists, ho, hp, hb2, c1, c2]
    · have hp2 : e.prepare metaSql = false := by simpa using hp
      exfalso
      simp [run_example_2, spatial_metadata_exists, ho, hp2] at h
  · have ho2 : e.openOk = false := by simpa using ho
    exfalso
    revert hc
    simp [run_example_2, ho2]

/-- Engine on which every call succeeds and the metadata table already
exists (any already-initialized database). -/
def okEngine : Engine :=
  { sqliteVersion := "3.45.1", spatialiteVersion := "5.1.0",
    openOk := true, closeOk := true, errmsg := "engine diagnostic",
    exec := fun _ => none,
    prepare := fun _ => true,
    step := fun s => if s = metaSql then StepRes.row "spatial_ref_sys" else StepRes.done }

/-- Engine on which the `sqlite3_prepare_v2` of the metadata-existence
check fails (everything else would succeed). -/
def metaFailEngine : Engine :=
  { sqliteVersion := "3.45.1", spatialiteVersion := "5.1.0",
    openOk := true, closeOk := true, errmsg := "disk I/O error",
    exec := fun _ => none,
    prepare := fun _ => false,
    step := fun _ => StepRes.done }

/-- Engine on which the `CREATE TABLE` statement of Example 1 fails and
every other call succeeds. -/
def createFailEngine : Engine :=
  { sqliteVersion := "3.45.1", spatialiteVersion := "5.1.0",
    openOk := true, closeOk := true, errmsg := "engine diagnostic",
    exec := fun s => if s = createSql then some "table points is locked" else none,
    prepare := fun _ => true,
    step := fun s => if s = metaSql then StepRes.row "spatial_ref_sys" else StepRes.done }

/-- C1, counterexample: with an engine whose metadata-check prepare call
fails, `run_example_1` neither exits with code 1 nor tears anything down
— the `std::runtime_error` thrown by `spatial_metadata_exists` escapes
uncaught, after the diagnostic was printed and the cache allocated. -/
theorem c1_counterexample :
    (run_example_1 metaFailEngine "test.db").2 ≠ Outcome.exited 1 ∧
    Ev.closeDb ∉ (run_example_1 metaFailEngine "test.db").1 ∧
    Ev.cacheFree ∉ (run_example_1 metaFailEngine "test.db").1 ∧
    Ev.cacheAlloc ∈ (run_example_1 metaFailEngine "test.db").1 ∧
    Ev.err ("Error checking if spatial_ref_sys table exists: disk I/O error")
      ∈ (run_example_1 metaFailEngine "test.db").1 := by
  refine ⟨?_, ?_, ?_, ?_, ?_⟩ <;> decide

/-- C1 (amended): whenever either runner returns failure (exit code 1)
after a non-success engine status, a diagnostic was printed to stderr,
the handle was closed and — when the per-connection cache had been
allocated — the cache was released and the library shut down; the one
exception is the metadata-check (prepare) failure, on which the runner
prints the diagnostic but exits via an uncaught exception with no
teardown at all, not with code 1. -/
theorem c1_error_propagation (e : Engine) (d : String) :
    ((run_example_1 e d).2 = Outcome.exited 1 →
      Ev.closeDb ∈ (run_example_1 e d).1 ∧
      (Ev.cacheAlloc ∈ (run_example_1 e d).1 →
        Ev.cacheFree ∈ (run_example_1 e d).1 ∧ Ev.shutdownLib ∈ (run_example_1 e d).1) ∧
      ∃ m, Ev.err m ∈ (run_example_1 e d).1) ∧
    ((run_example_2 e d).2 = Outcome.exited 1 →
      Ev.closeDb ∈ (run_example_2 e d).1 ∧
      (Ev.cacheAlloc ∈ (run_example_2 e d).1 →
        Ev.cacheFree ∈ (run_example_2 e d).1 ∧ Ev.shutdownLib ∈ (run_example_2 e d).1) ∧
      ∃ m, Ev.err m ∈ (run_example_2 e d).1) ∧
    (e.openOk = true → e.prepare metaSql = false →
      (run_example_1 e d).2 = Outcome.uncaught "Error checking if spatial_ref_sys table exists" ∧
      Ev.err ("Error checking if spatial_ref_sys table exists: " ++ e.errmsg) ∈ (run_example_1 e d).1 ∧
      Ev.cacheFree ∉ (run_example_1 e d).1 ∧ Ev.closeDb ∉ (run_example_1 e d).1) ∧
    (e.openOk = true → e.prepare metaSql = false →
      (run_example_2 e d).2 = Outcome.uncaught "Error checking if spatial_ref_sys table exists" ∧
      Ev.err ("Error checking if spatial_ref_sys table exists: " ++ e.errmsg) ∈ (run_example_2 e d).1 ∧
      Ev.cacheFree ∉ (run_example_2 e d).1 ∧ Ev.closeDb ∉ (run_example_2 e d).1) := by
  refine ⟨fun h => run1_exited_one h, fun h => run2_exited_one h, fun ho hp => ?_, fun ho hp => ?_⟩
  · obtain ⟨h1, _, h3, h4, h5⟩ := run1_meta_uncaught (d := d) ho hp
    exact ⟨h1, h3, h4, h5⟩
  · obtain ⟨h1, _, h3, h4, h5⟩ := run2_meta_uncaught (d := d) ho hp
    exact ⟨h1, h3, h4, h5⟩

/-- C1, witness: on a concrete engine whose `CREATE TABLE` fails,
Example 1 exits with code 1 and the amended propagation policy yields
the closed handle. -/
theorem c1_witness :
    (run_example_1 createFailEngine "w.db").2 = Outcome.exited 1 ∧
    Ev.closeDb ∈ (run_example_1 createFailEngine "w.db").1 :=
  ⟨by decide, ((c1_error_propagation createFailEngine "w.db").1 (by decide)).1⟩

/-- C2, counterexample: the metadata-check failure path is an exit path
of `run_example_1` that allocated the cache, yet the function exits (by
an uncaught exception) without releasing the cache or closing the
handle. -/
theorem c2_counterexample :
    (run_example_1 metaFailEngine "test.db").2
      = Outcome.uncaught "Error checking if spatial_ref_sys table exists" ∧
    Ev.cacheAlloc ∈ (run_example_1 metaFailEngine "test.db").1 ∧
    Ev.cacheFree ∉ (run_example_1 metaFailEngine "test.db").1 ∧
    Ev.closeDb ∉ (run_example_1 metaFailEngine "test.db").1 := by
  refine ⟨?_, ?_, ?_, ?_⟩ <;> decide

/-- C2 (amended): on every exit path of either runner that returns an
exit code (success or handled failure) after allocating the SpatiaLite
per-connection cache, both the cache and the database handle are
released before the function returns; the path that throws from the
metadata check is the exception, exiting without releasing either. -/
theorem c2_cache_lifetime (e : Engine) (d : String) (c : Nat) :
    ((run_example_1 e d).2 = Outcome.exited c →
      Ev.cacheAlloc ∈ (run_example_1 e d).1 →
      Ev.cacheFree ∈ (run_example_1 e d).1 ∧ Ev.closeDb ∈ (run_example_1 e d).1) ∧
    ((run_example_2 e d).2 = Outcome.exited c →
      Ev.cacheAlloc ∈ (run_example_2 e d).1 →
      Ev.cacheFree ∈ (run_example_2 e d).1 ∧ Ev.closeDb ∈ (run_example_2 e d).1) :=
  ⟨fun h hc => run1_exited_any h hc, fun h hc => run2_exited_any h hc⟩

/-- C2, witness: on a successful concrete run of Example 1 the cache is
released and the handle closed before returning. -/
theorem c2_witness :
    Ev.cacheFree ∈ (run_example_1 okEngine "w.db").1 ∧
    Ev.closeDb ∈ (run_example_1 okEngine "w.db").1 :=
  (c2_cache_lifetime okEngine "w.db" 0).1 (by decide) (by decide)

theorem exec_not_mem_handle_error (m s : String) :
    Ev.sqlExec s ∉ handle_error m := by
  simp [handle_error]

theorem exec_mem_step1 {e : Engine} {pre : List Ev} {sql ctx s : String}
    (hpre : ∀ x, Ev.sqlExec x ∉ pre)
    (h : Ev.sqlExec s ∈ (step1 e pre sql ctx).1) : s = sql := by
  cases hx : e.exec sql with
  | none =>
    simp only [step1, hx, List.mem_append] at h
    rcases h with h | h
    · exact absurd h (hpre s)
    · simpa using h
  | some m =>
    simp only [step1, hx, List.mem_append] at h
    rcases h with (h | h) | h
    · exact absurd h (hpre s)
    · simpa using h
    · exact absurd h (exec_not_mem_handle_error m s)

theorem exec_mem_initStep {e : Engine} {s : String}
    (h : Ev.sqlExec s ∈ (initStep e).1) :
    s = initSql ∧ (e.step metaSql).isRow = false := by
  by_cases hr : (e.step metaSql).isRow
  · simp [initStep, hr] at h
  · have hr2 : (e.step metaSql).isRow = false := by simpa using hr
    refine ⟨?_, hr2⟩
    rw [initStep, hr2] at h
    simp only [Bool.false_eq_true, if_false] at h
    exact exec_mem_step1 (by simp) h

theorem exec_mem_insertLoop {e : Engine} {s : String} :
    ∀ l : List (String × String), Ev.sqlExec s ∈ (insertLoop e l).1 →
      ∃ p ∈ l, s = insSql p.2 := by
  intro l
  induction l with
  | nil => intro h; simp [insertLoop] at h
  | cons p rest ih =>
    intro h
    cases hx : e.exec (insSql p.2) with
    | none =>
      simp only [insertLoop, hx, List.mem_append] at h
      rcases h with (h | h) | h
      · simp at h
      · exact ⟨p, by simp, by simpa using h⟩
      · obtain ⟨q, hq, hs⟩ := ih h
        exact ⟨q, by simp [hq], hs⟩
    | some m =>
      simp only [insertLoop, hx, List.mem_append] at h
      rcases h with (h | h) | h
      · simp at h
      · simp only [List.mem_cons, List.not_mem_nil, or_false] at h
        rcases h with h | h
        · exact ⟨p, by simp, by simpa using h⟩
        · simp at h
      · exact absurd h (exec_not_mem_handle_error m s)

theorem exec_not_mem_queryLoop {e : Engine} {s : String} :
    ∀ l : List (String × String), Ev.sqlExec s ∉ (queryLoop e l).1 := by
  intro l
  induction l with
  | nil => simp [queryLoop]
  | cons p rest ih =>
    intro h
    by_cases hp : e.prepare (qrySql p.2)
    · simp only [queryLoop, hp, if_true, List.mem_append] at h
      rcases h with h | h
      · simp at h
      · exact ih h
    · simp only [queryLoop, hp, Bool.false_eq_true, if_false] at h
      simp at h

theorem exec_mem_body1 {e : Engine} {s : String}
    (h : Ev.sqlExec s ∈ (body1 e).1) :
    (s = initSql ∧ (e.step metaSql).isRow = false) ∨
    s = createSql ∨ s = addGeomSql ∨ s = beginSql ∨ s = commitSql ∨
    ∃ p ∈ places1, s = insSql p.2 := by
  unfold body1 at h
  rcases mem_seqs h with h | h
  · exact Or.inl (exec_mem_initStep h)
  rcases mem_seqs h with h | h
  · exact Or.inr (Or.inl (exec_mem_step1 (by simp) h))
  rcases mem_seqs h with h | h
  · exact Or.inr (Or.inr (Or.inl (exec_mem_step1 (by simp) h)))
  rcases mem_seqs h with h | h
  · exact Or.inr (Or.inr (Or.inr (Or.inl (exec_mem_step1 (by simp) h))))
  rcases mem_seqs h with h | h
  · exact Or.inr (Or.inr (Or.inr (Or.inr (Or.inr (exec_mem_insertLoop places1 h)))))
  · exact Or.inr (Or.inr (Or.inr (Or.inr (Or.inl (exec_mem_step1 (by simp) h)))))

theorem exec_mem_body2 {e : Engine} {s : String}
    (h : Ev.sqlExec s ∈ (body2 e).1) :
    (s = initSql ∧ (e.step metaSql).isRow = false) ∨ s = importSql := by
  unfold body2 at h
  rcases mem_seqs h with h | h
  · exact Or.inl (exec_mem_initStep h)
  rcases mem_seqs h with h | h
  · exact Or.inr (exec_mem_step1 (by simp) h)
  · simp only [List.mem_append] at h
    rcases h with h | h
    · simp at h
    · exact absurd h (exec_not_mem_queryLoop places2)

theorem exec_mem_run1 {e : Engine} {d s : String}
    (h : Ev.sqlExec s ∈ (run_example_1 e d).1) :
    (s = initSql ∧ (e.step metaSql).isRow = false) ∨
    s = createSql ∨ s = addGeomSql ∨ s = beginSql ∨ s = commitSql ∨
    ∃ p ∈ places1, s = insSql p.2 := by
  by_cases ho : e.openOk
  · by_cases hp : e.prepare metaSql
    · by_cases hb : (body1 e).2
      · by_cases hc : e.closeOk
        all_goals
          simp [run_example_1, spatial_metadata_exists, closeTail, ho, hp, hb, hc] at h
        all_goals exact exec_mem_body1 h
      · have hb2 : (body1 e).2 = false := by simpa using hb
        simp [run_example_1, spatial_metadata_exists, ho, hp, hb2] at h
        exact exec_mem_body1 h
    · have hp2 : e.prepare metaSql = false := by simpa using hp
      exfalso
      revert h
      simp [run_example_1, spatial_metadata_exists, ho, hp2]
  · have ho2 : e.openOk = false := by simpa using ho
    exfalso
    revert h
    simp [run_example_1, ho2]

theorem exec_mem_run2 {e : Engine} {d s : String}
    (h : Ev.sqlExec s ∈ (run_example_2 e d).1) :
    (s = initSql ∧ (e.step metaSql).isRow = false) ∨ s = importSql := by
  by_cases ho : e.openOk
  · by_cases hp : e.prepare metaSql
    · by_cases hb : (body2 e).2
      · by_cases hc : e.closeOk
        all_goals
          simp [run_example_2, spatial_metadata_exists, closeTail, ho, hp, hb, hc] at h
        all_goals exact exec_mem_body2 h
      · have hb2 : (body2 e).2 = false := by simpa using hb
        simp [run_example_2, spatial_metadata_exists, ho, hp, hb2] at h
        exact exec_mem_body2 h
    · have hp2 : e.prepare metaSql = false := by simpa using hp
      exfalso
      revert h
      simp [run_example_2, spatial_metadata_exists, ho, hp2]
  · have ho2 : e.openOk = false := by simpa using ho
    exfalso
    revert h
    simp [run_example_2, ho2]

/-- C4: when the metadata-existence check finds the reference-systems
table (its catalog query returns a row), the bootstrap fragment is a
no-op that cannot fail, and neither runner ever submits
`InitSpatialMetaData` — re-running against an already-initialized
database neither errors in the bootstrap step nor re-initializes. -/
theorem c4_bootstrap_idempotent (e : Engine) (d : String)
    (_hp : e.prepare metaSql = true) (hr : (e.step metaSql).isRow = true) :
    (initStep e).1 = [] ∧ (initStep e).2 = true ∧
    Ev.sqlExec initSql ∉ (run_example_1 e d).1 ∧
    Ev.sqlExec initSql ∉ (run_example_2 e d).1 := by
  refine ⟨by simp [initStep, hr], by simp [initStep, hr], fun h => ?_, fun h => ?_⟩
  · rcases exec_mem_run1 h with ⟨_, hf⟩ | h | h | h | h | ⟨p, hmem, hs⟩
    · rw [hr] at hf
      exact absurd hf (by simp)
    · revert h; decide
    · revert h; decide
    · revert h; decide
    · revert h; decide
    · simp [places1] at hmem
      rcases hmem with h1 | h1 | h1 <;> rw [h1] at hs <;> revert hs <;> decide
  · rcases exec_mem_run2 h with ⟨_, hf⟩ | h
    · rw [hr] at hf
      exact absurd hf (by simp)
    · revert h; decide

/-- C4, witness: on a concrete already-initialized engine, Example 1
never submits `InitSpatialMetaData`. -/
theorem c4_witness :
    Ev.sqlExec initSql ∉ (run_example_1 okEngine "w2.db").1 :=
  (c4_bootstrap_idempotent okEngine "w2.db" (by decide) (by decide)).2.2.1

theorem step1_snd_true {e : Engine} {pre : List Ev} {sql ctx : String} :
    (step1 e pre sql ctx).2 = true ↔ e.exec sql = none := by
  cases hx : e.exec sql <;> simp [step1, hx]

theorem step1_of_none {e : Engine} {pre : List Ev} {sql ctx : String}
    (h : e.exec sql = none) : step1 e pre sql ctx = (pre ++ [Ev.sqlExec sql], true) := by
  simp [step1, h]

theorem insertLoop_true_iff {e : Engine} :
    ∀ l : List (String × String),
      (insertLoop e l).2 = true ↔ ∀ p ∈ l, e.exec (insSql p.2) = none := by
  intro l
  induction l with
  | nil => simp [insertLoop]
  | cons p rest ih =>
    cases hx : e.exec (insSql p.2) with
    | none => simp [insertLoop, hx, ih]
    | some m => simp [insertLoop, hx]

theorem initStep_of_row {e : Engine} (hr : (e.step metaSql).isRow = true) :
    initStep e = ([], true) := by
  simp [initStep, hr]

theorem initStep_of_norow {e : Engine} (hr : (e.step metaSql).isRow = false)
    (hi : e.exec initSql = none) :
    initStep e = ([Ev.out "Initializing Spatialite...", Ev.sqlExec initSql], true) := by
  simp [initStep, hr, step1, hi]

theorem mem_execsOf {t : List Ev} {s : String} :
    s ∈ execsOf t ↔ Ev.sqlExec s ∈ t := by
  simp only [execsOf, List.mem_filterMap]
  constructor
  · rintro ⟨ev, hev, hf⟩
    cases ev <;> simp at hf
    subst hf
    exact hev
  · intro h
    exact ⟨Ev.sqlExec s, h, rfl⟩

theorem foldl_txn_no_commit :
    ∀ (l : List String) (com p : List String), (∀ s ∈ l, s ≠ commitSql) →
      (l.foldl txnApply (com, some p)).1 = com := by
  intro l
  induction l with
  | nil => intro com p _; rfl
  | cons s rest ih =>
    intro com p h
    have hs : s ≠ commitSql := h s (by simp)
    have hrest : ∀ x ∈ rest, x ≠ commitSql := fun x hx => h x (by simp [hx])
    by_cases hi : strLeads "INSERT INTO points" s
    · simp only [List.foldl_cons, txnApply, hs, if_false, hi, if_true]
      exact ih com (p ++ [s]) hrest
    · simp only [List.foldl_cons, txnApply, hs, if_false, hi]
      exact ih com p hrest

/-- C6: on every successful run of Example 1 (exit code 0), the SQL
actually submitted through `sqlite3_exec` is, in order: the optional
one-time bootstrap, the table creation, the SRID-4326 POINT geometry
column registration, `BEGIN`, one insert per fixed place in list order
(Rio de Janeiro, Foz do Iguacu, Fernando de Noronha, each under SRID
4326), and `COMMIT` after the last insert; under the transactional
model, the point table then contains exactly those three rows. -/
theorem c6_example1_inserts (e : Engine) (d : String)
    (h : (run_example_1 e d).2 = Outcome.exited 0) :
    execsOf (run_example_1 e d).1 =
      (if (e.step metaSql).isRow then [] else [initSql]) ++
      [createSql, addGeomSql, beginSql,
       insSql "POINT(-43.1729 -22.9068)", insSql "POINT(-54.5854 -25.5165)",
       insSql "POINT(-32.423786 -3.853808)", commitSql] ∧
    committedInserts (execsOf (run_example_1 e d).1) =
      [insSql "POINT(-43.1729 -22.9068)", insSql "POINT(-54.5854 -25.5165)",
       insSql "POINT(-32.423786 -3.853808)"] := by
  have ho : e.openOk = true := by
    by_contra hx
    have ho2 : e.openOk = false := by simpa using hx
    simp [run_example_1, ho2] at h
  have hp : e.prepare metaSql = true := by
    by_contra hx
    have hp2 : e.prepare metaSql = false := by simpa using hx
    simp [run_example_1, spatial_metadata_exists, ho, hp2] at h
  have hb : (body1 e).2 = true := by
    by_contra hx
    have hb2 : (body1 e).2 = false := by simpa using hx
    simp [run_example_1, spatial_metadata_exists, ho, hp, hb2] at h
  have parts := hb
  unfold body1 at parts
  simp only [seqs_snd, Bool.and_eq_true, step1_snd_true, insertLoop_true_iff] at parts
  obtain ⟨pi, pc, pg, pbg, pl, pm⟩ := parts
  have h1 : e.exec (insSql "POINT(-43.1729 -22.9068)") = none :=
    pl ("Rio de Janeiro", "POINT(-43.1729 -22.9068)") (by simp [places1])
  have h2 : e.exec (insSql "POINT(-54.5854 -25.5165)") = none :=
    pl ("Foz do Iguacu", "POINT(-54.5854 -25.5165)") (by simp [places1])
  have h3 : e.exec (insSql "POINT(-32.423786 -3.853808)") = none :=
    pl ("Fernando de Noronha", "POINT(-32.423786 -3.853808)") (by simp [places1])
  have hfst : execsOf (run_example_1 e d).1 =
      (if (e.step metaSql).isRow then [] else [initSql]) ++
      [createSql, addGeomSql, beginSql,
       insSql "POINT(-43.1729 -22.9068)", insSql "POINT(-54.5854 -25.5165)",
       insSql "POINT(-32.423786 -3.853808)", commitSql] := by
    by_cases hr : (e.step metaSql).isRow
    · have hi := initStep_of_row hr
      by_cases hc2 : e.closeOk
      all_goals
        simp [run_example_1, spatial_metadata_exists, ho, hp, hb, body1, seqs, hi,
          step1, pc, pg, pbg, pm, insertLoop, places1, h1, h2, h3, execsOf,
          closeTail, hc2, hr]
    · have hr2 : (e.step metaSql).isRow = false := by simpa using hr
      have hinit : e.exec initSql = none := by
        simp [initStep, hr2, step1_snd_true] at pi
        exact pi
      have hi := initStep_of_norow hr2 hinit
      by_cases hc2 : e.closeOk
      all_goals
        simp [run_example_1, spatial_metadata_exists, ho, hp, hb, body1, seqs, hi,
          step1, pc, pg, pbg, pm, insertLoop, places1, h1, h2, h3, execsOf,
          closeTail, hc2, hr2]
  refine ⟨hfst, ?_⟩
  rw [hfst]
  by_cases hr : (e.step metaSql).isRow
  · rw [if_pos hr]
    decide
  · rw [if_neg hr]
    decide

/-- C6, witness: a concrete successful run of Example 1 on an engine
with pre-existing metadata. -/
theorem c6_witness :
    (run_example_1 okEngine "w3.db").2 = Outcome.exited 0 ∧
    committedInserts (execsOf (run_example_1 okEngine "w3.db").1) =
      [insSql "POINT(-43.1729 -22.9068)", insSql "POINT(-54.5854 -25.5165)",
       insSql "POINT(-32.423786 -3.853808)"] :=
  ⟨by decide, (c6_example1_inserts okEngine "w3.db" (by decide)).2⟩

/-- Engine on which the second insert of Example 1 fails and every other
call succeeds (metadata already present). -/
def insertFailEngine : Engine :=
  { sqliteVersion := "3.45.1", spatialiteVersion := "5.1.0",
    openOk := true, closeOk := true, errmsg := "engine diagnostic",
    exec := fun s => if s = insSql "POINT(-54.5854 -25.5165)" then some "constraint failed" else none,
    prepare := fun _ => true,
    step := fun s => if s = metaSql then StepRes.row "spatial_ref_sys" else StepRes.done }

/-- C7: when the insert loop of Example 1 fails after all prior steps
succeeded, the run aborts with exit code 1, no `COMMIT` is ever
submitted, no statement beginning with `ROLLBACK` is ever submitted, and
under the transactional model the opened transaction commits nothing. -/
theorem c7_insert_failure (e : Engine) (d : String)
    (ho : e.openOk = true) (hp : e.prepare metaSql = true)
    (hinit : (initStep e).2 = true)
    (hc : e.exec createSql = none) (hg : e.exec addGeomSql = none)
    (hbg : e.exec beginSql = none)
    (hfail : (insertLoop e places1).2 = false) :
    (run_example_1 e d).2 = Outcome.exited 1 ∧
    Ev.sqlExec commitSql ∉ (run_example_1 e d).1 ∧
    (∀ s, Ev.sqlExec s ∈ (run_example_1 e d).1 → strLeads "ROLLBACK" s = false) ∧
    committedInserts (execsOf (run_example_1 e d).1) = [] := by
  have hb2 : (body1 e).2 = false := by
    simp [body1, seqs_snd, hfail]
  refine ⟨?_, ?_, ?_, ?_⟩
  · simp [run_example_1, spatial_metadata_exists, ho, hp, hb2]
  · intro h
    simp [run_example_1, spatial_metadata_exists, ho, hp, hb2] at h
    unfold body1 at h
    simp only [seqs_of_false _ hfail] at h
    rcases mem_seqs h with h | h
    · rcases exec_mem_initStep h with ⟨h1, _⟩
      revert h1; decide
    rcases mem_seqs h with h | h
    · have h1 := exec_mem_step1 (by simp) h
      revert h1; decide
    rcases mem_seqs h with h | h
    · have h1 := exec_mem_step1 (by simp) h
      revert h1; decide
    rcases mem_seqs h with h | h
    · have h1 := exec_mem_step1 (by simp) h
      revert h1; decide
    · obtain ⟨p, hpm, h1⟩ := exec_mem_insertLoop places1 h
      simp [places1] at hpm
      rcases hpm with h2 | h2 | h2 <;> rw [h2] at h1 <;> revert h1 <;> decide
  · intro s hs
    rcases exec_mem_run1 hs with ⟨h1, _⟩ | h1 | h1 | h1 | h1 | ⟨p, hpm, h1⟩
    · rw [h1]; decide
    · rw [h1]; decide
    · rw [h1]; decide
    · rw [h1]; decide
    · rw [h1]; decide
    · simp [places1] at hpm
      rcases hpm with h2 | h2 | h2 <;> rw [h2] at h1 <;> rw [h1] <;> decide
  · have hnc : ∀ s ∈ execsOf (insertLoop e places1).1, s ≠ commitSql := by
      intro s hs2
      obtain ⟨p, hpm, rfl⟩ := exec_mem_insertLoop places1 (mem_execsOf.1 hs2)
      simp [places1] at hpm
      rcases hpm with h2 | h2 | h2 <;> rw [h2] <;> decide
    by_cases hr : (e.step metaSql).isRow
    · have hi := initStep_of_row hr
      have hex : execsOf (run_example_1 e d).1 =
          [createSql, addGeomSql, beginSql] ++ execsOf (insertLoop e places1).1 := by
        simp [run_example_1, spatial_metadata_exists, ho, hp, hb2, body1, seqs,
          step1, hc, hg, hbg, hfail, hinit, hi, execsOf]
      rw [hex]
      have hpre : List.foldl txnApply ([], none) [createSql, addGeomSql, beginSql]
          = ([], some []) := by decide
      unfold committedInserts
      rw [List.foldl_append, hpre]
      exact foldl_txn_no_commit _ [] [] hnc
    · have hr2 : (e.step metaSql).isRow = false := by simpa using hr
      have hinit2 : e.exec initSql = none := by
        have := hinit
        simp [initStep, hr2, step1_snd_true] at this
        exact this
      have hi := initStep_of_norow hr2 hinit2
      have hex : execsOf (run_example_1 e d).1 =
          [initSql, createSql, addGeomSql, beginSql] ++ execsOf (insertLoop e places1).1 := by
        simp [run_example_1, spatial_metadata_exists, ho, hp, hb2, body1, seqs,
          step1, hc, hg, hbg, hfail, hinit, hi, execsOf]
      rw [hex]
      have hpre : List.foldl txnApply ([], none) [initSql, createSql, addGeomSql, beginSql]
          = ([], some []) := by decide
      unfold committedInserts
      rw [List.foldl_append, hpre]
      exact foldl_txn_no_commit _ [] [] hnc

/-- C7, witness: on a concrete engine whose second insert fails, the run
exits 1 and commits nothing. -/
theorem c7_witness :
    (run_example_1 insertFailEngine "w4.db").2 = Outcome.exited 1 ∧
    committedInserts (execsOf (run_example_1 insertFailEngine "w4.db").1) = [] :=
  ⟨(c7_insert_failure insertFailEngine "w4.db" (by decide) (by decide) (by decide)
      (by decide) (by decide) (by decide) (by decide)).1,
   (c7_insert_failure insertFailEngine "w4.db" (by decide) (by decide) (by decide)
      (by decide) (by decide) (by decide) (by decide)).2.2.2⟩

theorem queryLoop_true_of_prepared {e : Engine} :
    ∀ l : List (String × String), (∀ p ∈ l, e.prepare (qrySql p.2) = true) →
      (queryLoop e l).2 = true := by
  intro l
  induction l with
  | nil => intro _; rfl
  | cons p rest ih =>
    intro h
    have hp := h p (by simp)
    simp only [queryLoop, hp, if_true]
    exact ih fun q hq => h q (by simp [hq])

theorem queryLoop_mem_line {e : Engine} :
    ∀ l : List (String × String), (∀ p ∈ l, e.prepare (qrySql p.2) = true) →
      ∀ p ∈ l, (e.step (qrySql p.2)).isRow = false →
        Ev.out (p.1 ++ " ---> " ++ "Not found") ∈ (queryLoop e l).1 := by
  intro l
  induction l with
  | nil => intro _ p hpm; simp at hpm
  | cons q rest ih =>
    intro h p hpm hnr
    have hq := h q (by simp)
    simp only [queryLoop, hq, if_true]
    rcases List.mem_cons.1 hpm with h1 | h1
    · subst h1
      cases hs : e.step (qrySql p.2) with
      | row v => rw [hs] at hnr; simp [StepRes.isRow] at hnr
      | done => simp [hs]
      | errc => simp [hs]
    · have := ih (fun r hr => h r (by simp [hr])) p h1 hnr
      simp [this]

theorem mem_body2_of_queryLoop {e : Engine} {ev : Ev}
    (hinit : (initStep e).2 = true) (himp : e.exec importSql = none)
    (h : ev ∈ (queryLoop e places2).1) : ev ∈ (body2 e).1 := by
  unfold body2
  rw [seqs_fst_of_true _ hinit,
    seqs_fst_of_true _ (step1_snd_true.mpr himp)]
  simp [h]

/-- C10: in Example 2, once the import pipeline has succeeded and all
five containment queries prepare successfully, the run always exits with
code 0 whatever `sqlite3_step` returns; in particular a step that comes
back with an error status (not a row) makes the program print
"Not found" for that point and continue — only a prepare failure can
abort the loop. -/
theorem c10_step_error_not_fatal (e : Engine) (d : String)
    (ho : e.openOk = true) (hp : e.prepare metaSql = true)
    (hinit : (initStep e).2 = true) (himp : e.exec importSql = none)
    (hq : ∀ p ∈ places2, e.prepare (qrySql p.2) = true) :
    (run_example_2 e d).2 = Outcome.exited 0 ∧
    ∀ p ∈ places2, e.step (qrySql p.2) = StepRes.errc →
      Ev.out (p.1 ++ " ---> " ++ "Not found") ∈ (run_example_2 e d).1 := by
  have hql := queryLoop_true_of_prepared places2 hq
  have hb : (body2 e).2 = true := by
    simp [body2, seqs_snd, hinit, step1_snd_true, himp, hql]
  constructor
  · simp [run_example_2, spatial_metadata_exists, ho, hp, hb]
  · intro p hpm hstep
    have hline := queryLoop_mem_line places2 hq p hpm (by simp [hstep, StepRes.isRow])
    have hm2 := mem_body2_of_queryLoop hinit himp hline
    simp [run_example_2, spatial_metadata_exists, ho, hp, hb, hm2]

/-- Engine for Example 2 on which the three Brazilian points return a
state row, Null Island steps with an error status, New York yields no
row, and everything else succeeds. -/
def stepErrEngine : Engine :=
  { sqliteVersion := "3.45.1", spatialiteVersion := "5.1.0",
    openOk := true, closeOk := true, errmsg := "engine diagnostic",
    exec := fun _ => none,
    prepare := fun _ => true,
    step := fun s =>
      if s = metaSql then StepRes.row "spatial_ref_sys"
      else if s = qrySql "POINT(-43.1729 -22.9068)" then StepRes.row "Rio de Janeiro"
      else if s = qrySql "POINT(-54.5854 -25.5165)" then StepRes.row "Parana"
      else if s = qrySql "POINT(-32.423786 -3.853808)" then StepRes.row "Pernambuco"
      else if s = qrySql "POINT(0 0)" then StepRes.errc
      else StepRes.done }

/-- C10, witness: with a concrete engine whose Null Island query steps
into an error status, the run still exits 0 and reports "Not found" for
Null Island. -/
theorem c10_witness :
    (run_example_2 stepErrEngine "w6.db").2 = Outcome.exited 0 ∧
    Ev.out ("Null Island" ++ " ---> " ++ "Not found") ∈ (run_example_2 stepErrEngine "w6.db").1 :=
  ⟨(c10_step_error_not_fatal stepErrEngine "w6.db" (by decide) (by decide) (by decide)
      (by decide) (by decide)).1,
   (c10_step_error_not_fatal stepErrEngine "w6.db" (by decide) (by decide) (by decide)
      (by decide) (by decide)).2 ("Null Island", "POINT(0 0)") (by decide) (by decide)⟩

/-- C5: when the import pipeline succeeds and the containment
queries return a row for each of the three Brazilian points and no row
for Null Island and New York, Example 2 reports, in list order, the
matched region for Rio de Janeiro, Foz do Iguacu and Fernando de
Noronha and then "Not found" for Null Island and New York, and the
zero-row results are not failures: the run exits with code 0. -/
theorem c5_example2_reports (e : Engine) (d v1 v2 v3 : String)
    (ho : e.openOk = true) (hp : e.prepare metaSql = true)
    (hr : (e.step metaSql).isRow = true)
    (himp : e.exec importSql = none)
    (hq1 : e.prepare (qrySql "POINT(-43.1729 -22.9068)") = true)
    (hq2 : e.prepare (qrySql "POINT(-54.5854 -25.5165)") = true)
    (hq3 : e.prepare (qrySql "POINT(-32.423786 -3.853808)") = true)
    (hq4 : e.prepare (qrySql "POINT(0 0)") = true)
    (hq5 : e.prepare (qrySql "POINT(-74.0060 40.7128)") = true)
    (hs1 : e.step (qrySql "POINT(-43.1729 -22.9068)") = StepRes.row v1)
    (hs2 : e.step (qrySql "POINT(-54.5854 -25.5165)") = StepRes.row v2)
    (hs3 : e.step (qrySql "POINT(-32.423786 -3.853808)") = StepRes.row v3)
    (hs4 : e.step (qrySql "POINT(0 0)") = StepRes.done)
    (hs5 : e.step (qrySql "POINT(-74.0060 40.7128)") = StepRes.done)
    (hcl : e.closeOk = true) :
    run_example_2 e d =
      ([Ev.setEnv "SPATIALITE_SECURITY" "relaxed",
        Ev.out ("Opening database: " ++ d),
        Ev.openDb d,
        Ev.cacheAlloc, Ev.spatialiteInit,
        Ev.sqlPrepare metaSql, Ev.finalizeStmt,
        Ev.out ("Importing shapefile: " ++ shp_file_path),
        Ev.out importSql,
        Ev.sqlExec importSql,
        Ev.out "Checking what are the correspoding State names for the following points:",
        Ev.sqlPrepare (qrySql "POINT(-43.1729 -22.9068)"),
        Ev.out ("Rio de Janeiro ---> " ++ v1), Ev.finalizeStmt,
        Ev.sqlPrepare (qrySql "POINT(-54.5854 -25.5165)"),
        Ev.out ("Foz do Iguacu ---> " ++ v2), Ev.finalizeStmt,
        Ev.sqlPrepare (qrySql "POINT(-32.423786 -3.853808)"),
        Ev.out ("Fernando de Noronha ---> " ++ v3), Ev.finalizeStmt,
        Ev.sqlPrepare (qrySql "POINT(0 0)"),
        Ev.out "Null Island ---> Not found", Ev.finalizeStmt,
        Ev.sqlPrepare (qrySql "POINT(-74.0060 40.7128)"),
        Ev.out "New York ---> Not found", Ev.finalizeStmt,
        Ev.closeDb, Ev.cacheFree, Ev.shutdownLib,
        Ev.out "Example 2 Done."],
       Outcome.exited 0) := by
  simp [run_example_2, spatial_metadata_exists, body2, seqs, initStep, step1, queryLoop,
    places2, closeTail, ho, hp, hr, himp, hq1, hq2, hq3, hq4, hq5,
    hs1, hs2, hs3, hs4, hs5, hcl]

/-- Engine realizing the expected Example 2 dataset behavior. -/
def ex2Engine : Engine :=
  { sqliteVersion := "3.45.1", spatialiteVersion := "5.1.0",
    openOk := true, closeOk := true, errmsg := "engine diagnostic",
    exec := fun _ => none,
    prepare := fun _ => true,
    step := fun s =>
      if s = metaSql then StepRes.row "spatial_ref_sys"
      else if s = qrySql "POINT(-43.1729 -22.9068)" then StepRes.row "Rio de Janeiro"
      else if s = qrySql "POINT(-54.5854 -25.5165)" then StepRes.row "Parana"
      else if s = qrySql "POINT(-32.423786 -3.853808)" then StepRes.row "Pernambuco"
      else StepRes.done }

/-- C5, witness: a concrete run realizing the five reports in order. -/
theorem c5_witness :
    (run_example_2 ex2Engine "w5.db").2 = Outcome.exited 0 ∧
    Ev.out ("Rio de Janeiro ---> " ++ "Rio de Janeiro") ∈ (run_example_2 ex2Engine "w5.db").1 ∧
    Ev.out "Null Island ---> Not found" ∈ (run_example_2 ex2Engine "w5.db").1 := by
  rw [c5_example2_reports ex2Engine "w5.db" "Rio de Janeiro" "Parana" "Pernambuco"
    (by decide) (by decide) (by decide) (by decide) (by decide) (by decide)
    (by decide) (by decide) (by decide) (by decide) (by decide) (by decide)
    (by decide) (by decide) (by decide)]
  refine ⟨rfl, ?_, ?_⟩ <;> simp

theorem noSetEnv_append {a b : List Ev} (ha : NoSetEnv a) (hb : NoSetEnv b) :
    NoSetEnv (a ++ b) := by
  intro n v h
  rcases List.mem_append.1 h with h | h
  · exact ha n v h
  · exact hb n v h

theorem noSetEnv_handle_error (m : String) : NoSetEnv (handle_error m) := by
  intro n v h
  simp [handle_error] at h

theorem noSetEnv_step1 {e : Engine} {pre : List Ev} {sql ctx : String}
    (hpre : NoSetEnv pre) : NoSetEnv (step1 e pre sql ctx).1 := by
  intro n v h
  cases hx : e.exec sql with
  | none =>
    simp only [step1, hx, List.mem_append] at h
    rcases h with h | h
    · exact hpre n v h
    · simp at h
  | some m =>
    simp only [step1, hx, List.mem_append] at h
    rcases h with (h | h) | h
    · exact hpre n v h
    · simp at h
    · exact noSetEnv_handle_error m n v h

theorem noSetEnv_initStep {e : Engine} : NoSetEnv (initStep e).1 := by
  intro n v h
  by_cases hr : (e.step metaSql).isRow
  · simp [initStep, hr] at h
  · have hr2 : (e.step metaSql).isRow = false := by simpa using hr
    rw [initStep, hr2] at h
    simp only [Bool.false_eq_true, if_false] at h
    exact noSetEnv_step1 (fun a b hx => by simp at hx) n v h

theorem noSetEnv_insertLoop {e : Engine} :
    ∀ l : List (String × String), NoSetEnv (insertLoop e l).1 := by
  intro l
  induction l with
  | nil => intro n v h; simp [insertLoop] at h
  | cons p rest ih =>
    intro n v h
    cases hx : e.exec (insSql p.2) with
    | none =>
      simp only [insertLoop, hx, List.mem_append] at h
      rcases h with (h | h) | h
      · simp at h
      · simp at h
      · exact ih n v h
    | some m =>
      simp only [insertLoop, hx, List.mem_append] at h
      rcases h with (h | h) | h
      · simp at h
      · simp at h
      · exact noSetEnv_handle_error m n v h

theorem noSetEnv_queryLoop {e : Engine} :
    ∀ l : List (String × String), NoSetEnv (queryLoop e l).1 := by
  intro l
  induction l with
  | nil => intro n v h; simp [queryLoop] at h
  | cons p rest ih =>
    intro n v h
    by_cases hp : e.prepare (qrySql p.2)
    · simp only [queryLoop, hp, if_true, List.mem_append] at h
      rcases h with h | h
      · simp at h
      · exact ih n v h
    · simp only [queryLoop, hp, Bool.false_eq_true, if_false] at h
      simp at h

theorem noSetEnv_seqs {a : List Ev × Bool} {b : Unit → List Ev × Bool}
    (ha : NoSetEnv a.1) (hb : NoSetEnv (b ()).1) : NoSetEnv (seqs a b).1 := by
  intro n v h
  rcases mem_seqs h with h | h
  · exact ha n v h
  · exact hb n v h

theorem noSetEnv_body1 {e : Engine} : NoSetEnv (body1 e).1 := by
  unfold body1
  refine noSetEnv_seqs noSetEnv_initStep ?_
  refine noSetEnv_seqs (noSetEnv_step1 ?_) ?_
  · intro n v h; simp at h
  refine noSetEnv_seqs (noSetEnv_step1 ?_) ?_
  · intro n v h; simp at h
  refine noSetEnv_seqs (noSetEnv_step1 ?_) ?_
  · intro n v h; simp at h
  refine noSetEnv_seqs (noSetEnv_insertLoop places1) ?_
  refine noSetEnv_step1 ?_
  intro n v h; simp at h

theorem noSetEnv_body2 {e : Engine} : NoSetEnv (body2 e).1 := by
  unfold body2
  refine noSetEnv_seqs noSetEnv_initStep ?_
  refine noSetEnv_seqs (noSetEnv_step1 ?_) ?_
  · intro n v h; simp at h
  refine noSetEnv_append ?_ (noSetEnv_queryLoop places2)
  intro n v h; simp at h

theorem noSetEnv_run1 {e : Engine} {d : String} : NoSetEnv (run_example_1 e d).1 := by
  intro n v h
  by_cases ho : e.openOk
  · by_cases hp : e.prepare metaSql
    · by_cases hb : (body1 e).2
      · by_cases hc : e.closeOk
        all_goals
          simp [run_example_1, spatial_metadata_exists, closeTail, ho, hp, hb, hc] at h
        all_goals exact noSetEnv_body1 n v h
      · have hb2 : (body1 e).2 = false := by simpa using hb
        simp [run_example_1, spatial_metadata_exists, ho, hp, hb2] at h
        exact noSetEnv_body1 n v h
    · have hp2 : e.prepare metaSql = false := by simpa using hp
      simp [run_example_1, spatial_metadata_exists, ho, hp2] at h
  · have ho2 : e.openOk = false := by simpa using ho
    simp [run_example_1, ho2] at h

theorem noSetEnv_parse_args :
    ∀ (toks : List OptTok) (cfg : Config), NoSetEnv (parse_args toks cfg).1 := by
  intro toks
  induction toks with
  | nil => intro cfg n v h; simp [parse_args] at h
  | cons t rest ih =>
    intro cfg n v h
    cases t with
    | exampleId a => exact ih _ n v (by simpa [parse_args] using h)
    | dbName a => exact ih _ n v (by simpa [parse_args] using h)
    | help => simp [parse_args, show_usage] at h
    | unknown => simp [parse_args, show_usage] at h

/-- C8: Example 2 sets `SPATIALITE_SECURITY=relaxed` as its very first
action — exactly once, hence before the import — and no later event of
the run ever touches the environment again; Example 1 and the argument
parser perform no `setenv` at all. -/
theorem c8_security_env (e : Engine) (d : String) (toks : List OptTok) (cfg : Config) :
    (run_example_2 e d).1.head? = some (Ev.setEnv "SPATIALITE_SECURITY" "relaxed") ∧
    NoSetEnv (run_example_2 e d).1.tail ∧
    NoSetEnv (run_example_1 e d).1 ∧
    NoSetEnv (parse_args toks cfg).1 := by
  refine ⟨?_, ?_, noSetEnv_run1, noSetEnv_parse_args toks cfg⟩
  · by_cases ho : e.openOk
    · by_cases hp : e.prepare metaSql
      · by_cases hb : (body2 e).2
        · simp [run_example_2, spatial_metadata_exists, ho, hp, hb]
        · have hb2 : (body2 e).2 = false := by simpa using hb
          simp [run_example_2, spatial_metadata_exists, ho, hp, hb2]
      · have hp2 : e.prepare metaSql = false := by simpa using hp
        simp [run_example_2, spatial_metadata_exists, ho, hp2]
    · have ho2 : e.openOk = false := by simpa using ho
      simp [run_example_2, ho2]
  · intro n v h
    by_cases ho : e.openOk
    · by_cases hp : e.prepare metaSql
      · by_cases hb : (body2 e).2
        · by_cases hc : e.closeOk
          all_goals
            simp [run_example_2, spatial_metadata_exists, closeTail, ho, hp, hb, hc] at h
          all_goals exact noSetEnv_body2 n v h
        · have hb2 : (body2 e).2 = false := by simpa using hb
          simp [run_example_2, spatial_metadata_exists, ho, hp, hb2] at h
          exact noSetEnv_body2 n v h
      · have hp2 : e.prepare metaSql = false := by simpa using hp
        simp [run_example_2, spatial_metadata_exists, ho, hp2] at h
    · have ho2 : e.openOk = false := by simpa using ho
      simp [run_example_2, ho2] at h

/-- C8, witness: concrete instances of the environment discipline. -/
theorem c8_witness :
    (run_example_2 okEngine "w7.db").1.head? = some (Ev.setEnv "SPATIALITE_SECURITY" "relaxed") ∧
    Ev.setEnv "SPATIALITE_SECURITY" "relaxed" ∉ (run_example_1 okEngine "w7.db").1 :=
  ⟨(c8_security_env okEngine "w7.db" [] initCfg).1,
   (c8_security_env okEngine "w7.db" [] initCfg).2.2.1 "SPATIALITE_SECURITY" "relaxed"⟩

theorem parse_args_of_unknown :
    ∀ (toks : List OptTok) (cfg : Config), OptTok.unknown ∈ toks →
      parse_args toks cfg = (show_usage, none) := by
  intro toks
  induction toks with
  | nil => intro cfg h; simp at h
  | cons t rest ih =>
    intro cfg h
    cases t with
    | exampleId a =>
      have h2 : OptTok.unknown ∈ rest := by simpa using h
      simp [parse_args, ih _ h2]
    | dbName a =>
      have h2 : OptTok.unknown ∈ rest := by simpa using h
      simp [parse_args, ih _ h2]
    | help => simp [parse_args]
    | unknown => simp [parse_args]

/-- C9: any command line containing an option flag that `getopt_long`
does not recognize makes the program print the usage message to stdout
and exit with code 0, exactly as `--help` does — it does not report an
error and exit 1, whatever else is on the command line. -/
theorem c9_unknown_option_exits_zero (e : Engine) (toks : List OptTok) (pos : Option String)
    (h : OptTok.unknown ∈ toks) :
    mainRun e { toks := toks, positional := pos } =
      (Ev.out "parsing arguments..." :: show_usage, Outcome.exited 0) := by
  simp [mainRun, parse_args_of_unknown toks initCfg h]

/-- C9, witness: a concrete command line with a single unrecognized
flag prints usage and exits 0. -/
theorem c9_witness :
    (mainRun okEngine { toks := [OptTok.unknown], positional := none }).2 = Outcome.exited 0 := by
  rw [c9_unknown_option_exits_zero okEngine [OptTok.unknown] none (by decide)]

/-- C3, counterexample: the `--example-id` value 257 is neither 1 nor 2,
yet because `example_id` is a `uint8_t` the stored id becomes 1, Example
1 runs (opening the in-memory database and submitting SQL) and the
process exits 0 on an all-success engine. -/
theorem c3_counterexample :
    ((257 : Int) ≠ 1 ∧ (257 : Int) ≠ 2 ∧ atoi "257" = 257) ∧
    toUInt8 (atoi "257") = 1 ∧
    (mainRun okEngine { toks := [OptTok.exampleId "257"], positional := none }).2
      = Outcome.exited 0 ∧
    Ev.openDb ":memory:"
      ∈ (mainRun okEngine { toks := [OptTok.exampleId "257"], positional := none }).1 ∧
    Ev.sqlExec createSql
      ∈ (mainRun okEngine { toks := [OptTok.exampleId "257"], positional := none }).1 := by
  refine ⟨⟨?_, ?_, ?_⟩, ?_, ?_, ?_, ?_⟩ <;> decide

/-- C3 (amended): an `--example-id` value selects an example through
truncation of `atoi` to `uint8_t`; for every value whose truncated id is
neither 1 nor 2 the program prints an error, exits with code 1, and
attempts no database operation — but values congruent to 1 or 2 modulo
256 (such as 257) do run an example. -/
theorem c3_invalid_example_id (e : Engine) (a : String)
    (h1 : toUInt8 (atoi a) ≠ 1) (h2 : toUInt8 (atoi a) ≠ 2) :
    (mainRun e { toks := [OptTok.exampleId a], positional := none }).2 = Outcome.exited 1 ∧
    Ev.err ("Unknown example ID: " ++ (Char.ofNat (toUInt8 (atoi a))).toString)
      ∈ (mainRun e { toks := [OptTok.exampleId a], positional := none }).1 ∧
    NoDbOp (mainRun e { toks := [OptTok.exampleId a], positional := none }).1 := by
  refine ⟨?_, ?_, ?_⟩
  · simp [mainRun, parse_args, initCfg, switchExample, h1, h2]
  · simp [mainRun, parse_args, initCfg, switchExample, h1, h2]
  · intro ev hev
    simp [mainRun, parse_args, initCfg, switchExample, h1, h2] at hev
    rcases hev with h3 | h3 | h3 <;> rw [h3] <;>
      exact ⟨fun s => by simp, fun s => by simp, fun s => by simp⟩

/-- C3, witness: the value 3 is rejected with exit code 1. -/
theorem c3_witness :
    (mainRun okEngine { toks := [OptTok.exampleId "3"], positional := none }).2
      = Outcome.exited 1 :=
  (c3_invalid_example_id okEngine "3" (by decide) (by decide)).1

end SpatialiteApp
